import Mathlib

/-!
Verification of the MQTT ingestion core of `mptt.server` against its
natural-language specification.

The development shallowly embeds the Go source:

* `onMessage` — the broker-callback topic classifier in
  `MQT.IngestorService/ingestor/ingestor_service.go` (`onMessage`);
* `channelSend` — the buffered-channel push `i.msgCh <- reading`
  (capacity 4096) performed on the callback path;
* `atoi`, `processItem`, `flushEvents`, `drainLoop` — the batch writer
  (`batchWriter`) and its per-item control-plane pipeline;
* `CircuitBreaker`, `canExecute`, `onSuccess`, `onFailure`, `onHalfOpen`,
  `retryAux` / `retryCall` — the resilience envelope in the API client
  (`client` package: `retryWithBackoff` and the breaker methods);
* `createReadingClassify` — the response classification inside
  `APIClient.CreateReading`.

Machine integers are modelled as `Nat`/`Int`; instants and durations as
`Nat` (Go `time.Time` / `time.Duration` ticks).  JSON payload bodies are
never inspected by the properties below and are abstracted as opaque
strings.
-/

namespace MpttServer

/-- A decoded, topic-classified message (`hardware_models.ReadingWithTopic`).
The JSON payload is opaque here: no verified property inspects it. -/
structure Telemetry where
  piID : String
  deviceID : String
  topic : String
  payload : String
  receivedAt : Nat
  deriving DecidableEq, Repr

/-- The persisted form (`hardware_models.Reading`) built by the batch
writer after `device_id` parsed as an integer. -/
structure Reading where
  piID : String
  deviceID : Int
  ts : Nat
  payload : String
  deriving DecidableEq, Repr

/-- The observable effect of the broker callback `onMessage` on one
message: either the reading is pushed towards the intake queue, or a
diagnostic is published (`publishError piID deviceID errorType`). -/
inductive MsgAction where
  | enqueue : Telemetry → MsgAction
  | publishError : String → String → String → MsgAction
  deriving DecidableEq, Repr

/-- Helper for `goSplit`: walks the character list, cutting at every
separator occurrence; the accumulator holds the current field reversed. -/
def splitListAux (sep : Char) : List Char → List Char → List (List Char)
  | acc, [] => [acc.reverse]
  | acc, c :: cs =>
    if c = sep then acc.reverse :: splitListAux sep [] cs
    else splitListAux sep (c :: acc) cs

/-- Go `strings.Split(s, sep)` for a one-character separator: every
occurrence cuts, empty fields are kept, and the empty string yields
`[""]`. -/
def goSplit (sep : Char) (s : String) : List String :=
  (splitListAux sep [] s.data).map List.asString

/-- `Ingestor.onMessage`, topic handling only (the payload body is passed
through opaquely).  Mirrors the source: split the topic on "/", reject
with an `invalid_topic` diagnostic when fewer than 4 segments (taking
best-effort ids from segments 1 and 2, defaulting to "unknown"), and
otherwise enqueue `ReadingWithTopic{PiID = parts[1], DeviceID = parts[2]}`.
No other condition is tested: the first segment is never compared with
the configured sensor topic root and empty segments are not rejected. -/
def onMessage (topic : String) (payload : String) (now : Nat) : MsgAction :=
  let parts := goSplit '/' topic
  if parts.length < 4 then
    let piID := parts.getD 1 "unknown"
    let deviceID := parts.getD 2 "unknown"
    MsgAction.publishError piID deviceID "invalid_topic"
  else
    MsgAction.enqueue
      { piID := parts.getD 1 "unknown"
        deviceID := parts.getD 2 "unknown"
        topic := topic
        payload := payload
        receivedAt := now }

/-- Modelled from the spec's words (§4.B), for comparison with
`onMessage` only: a topic is accepted when splitting on "/" yields at
least 4 non-empty segments whose first equals the configured sensor
topic root. -/
def specTopicAccepted (root topic : String) : Bool :=
  let parts := goSplit '/' topic
  decide (4 ≤ parts.length) && (parts.take 4).all (· ≠ "") && parts.getD 0 "" == root

/-- Capacity of the intake queue: `make(chan ReadingWithTopic, 4096)`. -/
def queueCapacity : Nat := 4096

/-- The push `i.msgCh <- reading` on the callback path, i.e. a Go send on
a buffered channel: it appends while the buffer holds fewer than
`queueCapacity` items and otherwise blocks (modelled as `none` — the
callback does not return).  There is no `select`/`default` drop path in
the source. -/
def channelSend (q : List Telemetry) (t : Telemetry) : Option (List Telemetry) :=
  if q.length < queueCapacity then some (q ++ [t]) else none

/-- Modelled from the spec's words (§4.C) for comparison only: a
non-blocking push that drops the message when the queue is full. -/
def specPush (q : List Telemetry) (t : Telemetry) : List Telemetry :=
  if q.length < queueCapacity then q ++ [t] else q

/-- A sample well-formed telemetry item, used in concrete witnesses. -/
def t0 : Telemetry :=
  { piID := "pi_001", deviceID := "42", topic := "sensors/pi_001/42/temp"
    payload := "\x7b\x7d", receivedAt := 0 }

/-- A telemetry item whose raw device id is not numeric (spec scenario
S5). -/
def tBad : Telemetry :=
  { piID := "pi_001", deviceID := "not_an_int", topic := "sensors/pi_001/not_an_int/x"
    payload := "\x7bv:1\x7d", receivedAt := 0 }

/-- Go `strconv.Atoi`: an optional leading sign followed by at least one
ASCII digit, base 10.  (Go additionally fails on 64-bit overflow; the
verified properties never involve such magnitudes, so the model is
unbounded.) -/
def atoi (s : String) : Option Int :=
  match s.data with
  | [] => none
  | c :: cs =>
    let p : Bool × List Char :=
      if c = '-' then (true, cs) else if c = '+' then (false, cs) else (false, c :: cs)
    if p.2 = [] then none
    else if p.2.all Char.isDigit then
      let n : Nat := p.2.foldl (fun acc d => acc * 10 + (d.toNat - 48)) 0
      some (if p.1 then -(n : Int) else (n : Int))
    else none

/-- One observable action of the batch writer during a flush: a
control-plane HTTP call or a diagnostic publication (`publishError`
carries pi id, raw device id and the error_type string; the
human-readable message is elided). -/
inductive ApiEvent where
  | callValidatePi (piID : String)
  | callValidateDevice (piID : String) (deviceID : Int)
  | callCreateReading (r : Reading)
  | publishError (piID deviceID errorType : String)
  deriving DecidableEq, Repr

/-- The error_type of a diagnostic publication, `none` for the HTTP
calls. -/
def ApiEvent.errType : ApiEvent → Option String
  | .publishError _ _ k => some k
  | _ => none

/-- The control-plane responses visible to one flush: each operation
either errs (transport / non-2xx / decode / breaker, as a message
string) or yields its decoded result. -/
structure ApiEnv where
  validatePi : String → Except String Bool
  validateDevice : String → Int → Except String Bool
  createReading : Reading → Except String Unit

/-- One iteration of the `for _, readingWithTopic := range batch` body of
`batchWriter`'s `flush`: convert the device id with `strconv.Atoi` (on
failure log and `continue` — no call, no diagnostic), then
`ValidatePi` (error → `pi_validation_error` diagnostic; `false` →
`pi_not_found`), then `ValidateDevice` (error →
`device_validation_error`; `false` → `device_not_found`), then
`CreateReading` (error → `create_reading_error`).  Every failure path
ends the item and processing continues with the next item. -/
def processItem (env : ApiEnv) (t : Telemetry) : List ApiEvent :=
  match atoi t.deviceID with
  | none => []
  | some d =>
    ApiEvent.callValidatePi t.piID ::
      match env.validatePi t.piID with
      | Except.error _ => [ApiEvent.publishError t.piID t.deviceID "pi_validation_error"]
      | Except.ok false => [ApiEvent.publishError t.piID t.deviceID "pi_not_found"]
      | Except.ok true =>
        ApiEvent.callValidateDevice t.piID d ::
          match env.validateDevice t.piID d with
          | Except.error _ => [ApiEvent.publishError t.piID t.deviceID "device_validation_error"]
          | Except.ok false => [ApiEvent.publishError t.piID t.deviceID "device_not_found"]
          | Except.ok true =>
            ApiEvent.callCreateReading ⟨t.piID, d, t.receivedAt, t.payload⟩ ::
              match env.createReading ⟨t.piID, d, t.receivedAt, t.payload⟩ with
              | Except.error _ => [ApiEvent.publishError t.piID t.deviceID "create_reading_error"]
              | Except.ok _ => []

/-- `batchWriter`'s `flush`: the buffered items are handled one by one in
insertion order; the events of one flush are the concatenation of the
per-item events. -/
def flushEvents (env : ApiEnv) (batch : List Telemetry) : List ApiEvent :=
  batch.flatMap (processItem env)

/-- The error_type strings of the diagnostics among a list of events. -/
def publishedTypes (evts : List ApiEvent) : List String :=
  evts.filterMap ApiEvent.errType

/-- The control-plane calls among a list of events. -/
def callsOf (evts : List ApiEvent) : List ApiEvent :=
  evts.filter fun e => (ApiEvent.errType e).isNone

/-- All three control-plane operations answer positively. -/
def envAllOk : ApiEnv :=
  { validatePi := fun _ => Except.ok true
    validateDevice := fun _ _ => Except.ok true
    createReading := fun _ => Except.ok () }

/-- Pi validation fails at the transport level; the rest answers
positively. -/
def envPiTransportErr : ApiEnv :=
  { validatePi := fun _ => Except.error "connection refused"
    validateDevice := fun _ _ => Except.ok true
    createReading := fun _ => Except.ok () }

/-- The error_type strings the flush path of the source can emit. -/
def codeErrorKinds : List String :=
  ["pi_validation_error", "pi_not_found", "device_validation_error",
   "device_not_found", "create_reading_error"]

/-- The error kinds §4.F of the spec says the core MUST use, for
comparison with the source's strings. -/
def specErrorKinds : List String :=
  ["invalid_topic", "device_id_parse_error", "gateway_validation_error",
   "gateway_not_found", "device_validation_error", "device_not_found", "insert_failed"]

/-- The consumer loop of `batchWriter` after the intake channel has been
closed: Go delivers the items still buffered in the channel in FIFO
order (`rd, ok := <-i.msgCh` with `ok = true`), each is appended to the
batch with a flush whenever `len(batch) >= BatchSize`, and once the
channel is empty the receive reports `ok = false`, which triggers one
final flush and the writer returns. -/
def drainLoop (env : ApiEnv) (batchSize : Nat) : List Telemetry → List Telemetry → List ApiEvent
  | batch, [] => flushEvents env batch
  | batch, rd :: rest =>
    let batch2 := batch ++ [rd]
    if batchSize ≤ batch2.length then
      flushEvents env batch2 ++ drainLoop env batchSize [] rest
    else
      drainLoop env batchSize batch2 rest

/-- The lifecycle actions of `Ingestor.Stop`. -/
inductive LifecycleOp where
  | disconnect
  | closeIntake
  | waitWriter
  deriving DecidableEq, Repr

/-- `Ingestor.Stop`: disconnect the MQTT client when connected, then
`close(i.msgCh)` (exactly once), then `i.wg.Wait()` for the batch
writer. -/
def stopSequence (connected : Bool) : List LifecycleOp :=
  (if connected then [LifecycleOp.disconnect] else [])
    ++ [LifecycleOp.closeIntake, LifecycleOp.waitWriter]

/-- `CircuitBreakerState` of the client package (`StateClosed`,
`StateOpen`, `StateHalfOpen`). -/
inductive CircuitBreakerState where
  | closed
  | opened
  | halfOpen
  deriving DecidableEq, Repr

/-- The `CircuitBreaker` struct.  Instants and durations are `Nat` ticks
(Go nanoseconds). -/
structure CircuitBreaker where
  maxFailures : Nat
  resetTimeout : Nat
  state : CircuitBreakerState
  failureCount : Nat
  lastFailTime : Nat
  deriving DecidableEq, Repr

/-- `CircuitBreaker.canExecute`: closed and half-open always permit; open
permits exactly when `time.Since(lastFailTime) > resetTimeout`
(strictly).  Note: it only reads the state — it performs no
transition. -/
def canExecute (cb : CircuitBreaker) (now : Nat) : Bool :=
  match cb.state with
  | CircuitBreakerState.closed => true
  | CircuitBreakerState.opened => decide (cb.resetTimeout < now - cb.lastFailTime)
  | CircuitBreakerState.halfOpen => true

/-- `CircuitBreaker.onSuccess`: zero the failure count and close. -/
def onSuccess (cb : CircuitBreaker) : CircuitBreaker :=
  { cb with failureCount := 0, state := CircuitBreakerState.closed }

/-- `CircuitBreaker.onFailure`: increment the failure count, record the
failure instant, and open once the count reaches `maxFailures`. -/
def onFailure (cb : CircuitBreaker) (now : Nat) : CircuitBreaker :=
  let cb2 := { cb with failureCount := cb.failureCount + 1, lastFailTime := now }
  if cb2.maxFailures ≤ cb2.failureCount then
    { cb2 with state := CircuitBreakerState.opened }
  else cb2

/-- `CircuitBreaker.onHalfOpen`: set the half-open state.  Dead code —
no call site exists anywhere in the repository. -/
def onHalfOpen (cb : CircuitBreaker) : CircuitBreaker :=
  { cb with state := CircuitBreakerState.halfOpen }

/-- How one `retryWithBackoff` invocation ends: the operation succeeded,
the breaker refused (`"circuit breaker is open"`), the context was
cancelled during a backoff wait, or all attempts failed. -/
inductive CallOutcome where
  | success
  | breakerOpenErr
  | cancelled
  | exhausted
  deriving DecidableEq, Repr

/-- The observable result of one `retryWithBackoff` invocation: the
breaker afterwards, how many times `operation()` ran (network requests),
the backoff delays actually waited, and the outcome. -/
structure CallTrace where
  breaker : CircuitBreaker
  requests : Nat
  waits : List Nat
  outcome : CallOutcome
  deriving DecidableEq, Repr

/-- The body of `retryWithBackoff`'s `for attempt := 0; attempt <=
maxRetries; attempt++` loop, iterated over the remaining attempt
indices.  `op i` tells whether `operation()` succeeds on attempt `i`;
`cancel i` tells whether the context is cancelled during the backoff
wait after attempt `i`.  Per iteration: if `canExecute` refuses, return
the breaker-open error (no request); run the operation; on success
`onSuccess` and return; on failure `onFailure`, stop after the last
attempt, otherwise wait `retryDelay * 2^attempt` (returning the
context's error when cancelled during the wait) and continue.  Time
advances by the waited delays. -/
def retryLoop (maxRetries retryDelay : Nat) (op cancel : Nat → Bool) :
    List Nat → CircuitBreaker → Nat → Nat → List Nat → CallTrace
  | [], cb, _, reqs, waits => ⟨cb, reqs, waits, CallOutcome.exhausted⟩
  | attempt :: rest, cb, now, reqs, waits =>
    if canExecute cb now then
      if op attempt then ⟨onSuccess cb, reqs + 1, waits, CallOutcome.success⟩
      else
        let cb2 := onFailure cb now
        if attempt = maxRetries then ⟨cb2, reqs + 1, waits, CallOutcome.exhausted⟩
        else
          let delay := retryDelay * 2 ^ attempt
          if cancel attempt then ⟨cb2, reqs + 1, waits, CallOutcome.cancelled⟩
          else retryLoop maxRetries retryDelay op cancel rest cb2 (now + delay) (reqs + 1) (waits ++ [delay])
    else ⟨cb, reqs, waits, CallOutcome.breakerOpenErr⟩

/-- `APIClient.retryWithBackoff` started at instant `now`: attempts
`0, …, maxRetries`. -/
def retryWithBackoff (maxRetries retryDelay : Nat) (cb : CircuitBreaker)
    (op cancel : Nat → Bool) (now : Nat) : CallTrace :=
  retryLoop maxRetries retryDelay op cancel (List.range (maxRetries + 1)) cb now 0 []

/-- `time.Second` in nanoseconds. -/
def second : Nat := 1000000000

/-- The breaker as built by `NewAPIClient`: `maxFailures 5`,
`resetTimeout 30s`, closed. -/
def initialBreaker : CircuitBreaker :=
  { maxFailures := 5, resetTimeout := 30 * second
    state := CircuitBreakerState.closed, failureCount := 0, lastFailTime := 0 }

/-- `NewAPIClient`'s `maxRetries`. -/
def defaultMaxRetries : Nat := 3

/-- `NewAPIClient`'s `retryDelay` (1 s). -/
def defaultRetryDelay : Nat := second

/-- An operation that fails on every attempt. -/
def opFail : Nat → Bool := fun _ => false

/-- A context that is never cancelled. -/
def noCancel : Nat → Bool := fun _ => false

/-- The breaker after five `onFailure` transitions at instant 0 from the
fresh breaker: open, failure count 5. -/
def openBreaker5 : CircuitBreaker :=
  onFailure (onFailure (onFailure (onFailure (onFailure initialBreaker 0) 0) 0) 0) 0

/-- First client call with every attempt failing, started at 0. -/
def call1 : CallTrace :=
  retryWithBackoff defaultMaxRetries defaultRetryDelay initialBreaker opFail noCancel 0

/-- Second consecutive failing call, started 1 s after `call1`'s last
attempt (8 s). -/
def call2 : CallTrace :=
  retryWithBackoff defaultMaxRetries defaultRetryDelay call1.breaker opFail noCancel (8 * second)

/-- Third consecutive failing call, started at 10 s. -/
def call3 : CallTrace :=
  retryWithBackoff defaultMaxRetries defaultRetryDelay call2.breaker opFail noCancel (10 * second)

/-- An HTTP response as `APIClient.CreateReading` sees it: status code,
whether the JSON body decodes, and the decoded `success`/`error`
fields. -/
structure HttpResponse where
  status : Nat
  decodeOk : Bool
  success : Bool
  error : String
  deriving DecidableEq, Repr

/-- The classification of one `CreateReading` attempt (`true` = the
retried closure returns nil): a transport error (`none`) fails; a status
other than 201 or 200 fails; a body that does not decode fails; a body
with `success = false` *and* a non-empty `error` fails; anything else —
including `success = false` with an empty `error` — succeeds. -/
def createReadingClassify (resp : Option HttpResponse) : Bool :=
  match resp with
  | none => false
  | some r =>
    if r.status ≠ 201 ∧ r.status ≠ 200 then false
    else if r.decodeOk = false then false
    else if r.success = false ∧ r.error ≠ "" then false
    else true

/-! ## Helper lemmas -/

/-- Flushing a concatenation flushes the pieces in order. -/
theorem flushEvents_append (env : ApiEnv) (b1 b2 : List Telemetry) :
    flushEvents env (b1 ++ b2) = flushEvents env b1 ++ flushEvents env b2 := by
  simp [flushEvents]

/-- `onFailure` increments the failure count by exactly one. -/
theorem onFailure_count (cb : CircuitBreaker) (now : Nat) :
    (onFailure cb now).failureCount = cb.failureCount + 1 := by
  simp only [onFailure]
  split <;> rfl

/-- `onFailure` records the failure instant. -/
theorem onFailure_lastFail (cb : CircuitBreaker) (now : Nat) :
    (onFailure cb now).lastFailTime = now := by
  simp only [onFailure]
  split <;> rfl

/-- `onFailure` opens exactly when the incremented count reaches the
threshold, and otherwise keeps the state. -/
theorem onFailure_state_iff (cb : CircuitBreaker) (now : Nat) :
    (onFailure cb now).state = CircuitBreakerState.opened
      ↔ cb.maxFailures ≤ cb.failureCount + 1 ∨ cb.state = CircuitBreakerState.opened := by
  simp only [onFailure]
  split
  next h => simp only [h, true_or]
  next h => simp [h]

/-- `onFailure` never produces the half-open state from a non-half-open
state. -/
theorem onFailure_no_half_open (cb : CircuitBreaker) (now : Nat)
    (h : cb.state ≠ CircuitBreakerState.halfOpen) :
    (onFailure cb now).state ≠ CircuitBreakerState.halfOpen := by
  simp only [onFailure]
  split
  · simp
  · exact h

/-- `onFailure` keeps an open breaker open. -/
theorem onFailure_opened (cb : CircuitBreaker) (now : Nat)
    (h : cb.state = CircuitBreakerState.opened) :
    (onFailure cb now).state = CircuitBreakerState.opened := by
  simp only [onFailure]
  split
  · rfl
  · exact h

/-- The retry loop never produces the half-open state: `onHalfOpen` has
no caller, `onSuccess` closes, `onFailure` opens or keeps the state. -/
theorem retryLoop_no_half_open (maxRetries retryDelay : Nat) (op cancel : Nat → Bool)
    (attempts : List Nat) (cb : CircuitBreaker) (now reqs : Nat) (waits : List Nat)
    (h : cb.state ≠ CircuitBreakerState.halfOpen) :
    (retryLoop maxRetries retryDelay op cancel attempts cb now reqs waits).breaker.state
      ≠ CircuitBreakerState.halfOpen := by
  induction attempts generalizing cb now reqs waits with
  | nil => simpa [retryLoop] using h
  | cons a rest ih =>
    simp only [retryLoop]
    by_cases hce : canExecute cb now
    · rw [if_pos hce]
      by_cases hop : op a
      · rw [if_pos hop]
        simp [onSuccess]
      · rw [if_neg hop]
        by_cases hlast : a = maxRetries
        · rw [if_pos hlast]
          exact onFailure_no_half_open cb now h
        · rw [if_neg hlast]
          by_cases hcan : cancel a
          · rw [if_pos hcan]
            exact onFailure_no_half_open cb now h
          · rw [if_neg hcan]
            exact ih (onFailure cb now) _ _ _ (onFailure_no_half_open cb now h)
    · rw [if_neg hce]
      exact h

/-- If every attempt fails, a breaker that starts open stays open
through the whole retry loop. -/
theorem retryLoop_all_fail_opened (maxRetries retryDelay : Nat) (op cancel : Nat → Bool)
    (attempts : List Nat) (cb : CircuitBreaker) (now reqs : Nat) (waits : List Nat)
    (hop : ∀ i, op i = false) (h : cb.state = CircuitBreakerState.opened) :
    (retryLoop maxRetries retryDelay op cancel attempts cb now reqs waits).breaker.state
      = CircuitBreakerState.opened := by
  induction attempts generalizing cb now reqs waits with
  | nil => simpa [retryLoop] using h
  | cons a rest ih =>
    simp only [retryLoop, hop a]
    by_cases hce : canExecute cb now
    · rw [if_pos hce]
      simp only [Bool.false_eq_true, if_false]
      by_cases hlast : a = maxRetries
      · rw [if_pos hlast]
        exact onFailure_opened cb now h
      · rw [if_neg hlast]
        by_cases hcan : cancel a
        · rw [if_pos hcan]
          exact onFailure_opened cb now h
        · rw [if_neg hcan]
          exact ih (onFailure cb now) _ _ _ (onFailure_opened cb now h)
    · rw [if_neg hce]
      exact h

/-- If every attempt fails, each request made by the retry loop
increments the failure count by exactly one. -/
theorem retryLoop_fail_counting (maxRetries retryDelay : Nat) (op cancel : Nat → Bool)
    (attempts : List Nat) (cb : CircuitBreaker) (now reqs : Nat) (waits : List Nat)
    (hop : ∀ i, op i = false) :
    (retryLoop maxRetries retryDelay op cancel attempts cb now reqs waits).breaker.failureCount
        + reqs
      = cb.failureCount
        + (retryLoop maxRetries retryDelay op cancel attempts cb now reqs waits).requests := by
  induction attempts generalizing cb now reqs waits with
  | nil => simp [retryLoop]
  | cons a rest ih =>
    simp only [retryLoop, hop a]
    by_cases hce : canExecute cb now
    · rw [if_pos hce]
      simp only [Bool.false_eq_true, if_false]
      by_cases hlast : a = maxRetries
      · rw [if_pos hlast]
        simp [onFailure_count]
        omega
      · rw [if_neg hlast]
        by_cases hcan : cancel a
        · rw [if_pos hcan]
          simp [onFailure_count]
          omega
        · rw [if_neg hcan]
          have h2 := ih (onFailure cb now) (now + retryDelay * 2 ^ a) (reqs + 1)
            (waits ++ [retryDelay * 2 ^ a])
          rw [onFailure_count] at h2
          omega
    · rw [if_neg hce]

/-! ## Theorems -/

/-- C1, counterexample.  The topic `invalid/topic/without/enough` (four
segments, wrong first segment) is *accepted* by `onMessage` — classified
with pi id `topic`, device id `without`, and enqueued — although the
spec-worded parser rejects it; no `invalid_topic` diagnostic is
produced. -/
theorem onMessage_wrong_root_accepted :
    onMessage "invalid/topic/without/enough" "\x7b\x7d" 0 =
      MsgAction.enqueue
        { piID := "topic", deviceID := "without"
          topic := "invalid/topic/without/enough", payload := "\x7b\x7d", receivedAt := 0 }
    ∧ specTopicAccepted "sensors" "invalid/topic/without/enough" = false := by
  exact ⟨by decide, by decide⟩

/-- C1, amended.  `onMessage` classifies a topic solely by its segment
count: when splitting on "/" yields at least 4 segments (non-emptiness
and the first segment are not checked) the message is enqueued with
gateway id = segment 1 and raw device id = segment 2; otherwise exactly
one `invalid_topic` diagnostic is produced, addressed with best-effort
ids taken from segments 1 and 2 (default "unknown"). -/
theorem onMessage_classifies (topic payload : String) (now : Nat) :
    (4 ≤ (goSplit '/' topic).length →
      onMessage topic payload now =
        MsgAction.enqueue
          { piID := (goSplit '/' topic).getD 1 "unknown"
            deviceID := (goSplit '/' topic).getD 2 "unknown"
            topic := topic, payload := payload, receivedAt := now })
    ∧ ((goSplit '/' topic).length < 4 →
      onMessage topic payload now =
        MsgAction.publishError ((goSplit '/' topic).getD 1 "unknown")
          ((goSplit '/' topic).getD 2 "unknown") "invalid_topic") := by
  constructor
  · intro h
    simp [onMessage, Nat.not_lt.mpr h]
  · intro h
    simp [onMessage, h]

/-- C1, witness: `onMessage_classifies` applied to the happy-path topic
of spec scenario S1. -/
theorem onMessage_classifies_witness :
    onMessage "sensors/pi_001/42/temp" "\x7b\x7d" 7 =
      MsgAction.enqueue
        { piID := "pi_001", deviceID := "42"
          topic := "sensors/pi_001/42/temp", payload := "\x7b\x7d", receivedAt := 7 } := by
  have h := (onMessage_classifies "sensors/pi_001/42/temp" "\x7b\x7d" 7).1 (by decide)
  exact h.trans (by decide)

/-- C4, counterexample.  A telemetry whose raw device id `not_an_int`
does not parse produces *no* events at all during a flush: no
control-plane call, but also no `device_id_parse_error` diagnostic (the
source only logs and `continue`s). -/
theorem parse_failure_no_diagnostic :
    processItem envAllOk tBad = []
    ∧ publishedTypes (processItem envAllOk tBad) = [] := by
  exact ⟨by decide, by decide⟩

/-- C4, amended.  For every Telemetry processed during a flush whose
device_id_raw does not parse as a base-10 integer, no control-plane call
is made for that item and the item is skipped; however no diagnostic is
published either — the failure is only logged. -/
theorem parse_failure_skips_silently (env : ApiEnv) (t : Telemetry)
    (h : atoi t.deviceID = none) :
    processItem env t = [] := by
  simp [processItem, h]

/-- C4, witness: `parse_failure_skips_silently` at scenario S5's
telemetry. -/
theorem parse_failure_skips_silently_witness :
    atoi tBad.deviceID = none ∧ processItem envAllOk tBad = [] :=
  ⟨by decide, parse_failure_skips_silently envAllOk tBad (by decide)⟩

/-- C5, counterexample.  A transport error during gateway (pi)
validation publishes a diagnostic whose error_type is
`pi_validation_error` — a string outside the set §4.F of the spec
prescribes (which expects `gateway_validation_error`). -/
theorem diagnostic_string_not_in_spec_set :
    processItem envPiTransportErr t0 =
      [ApiEvent.callValidatePi "pi_001",
       ApiEvent.publishError "pi_001" "42" "pi_validation_error"]
    ∧ "pi_validation_error" ∉ specErrorKinds := by
  exact ⟨by decide, by decide⟩

/-- C5, amended.  Every diagnostic the flush path publishes carries an
error_type drawn from exactly {`pi_validation_error`, `pi_not_found`,
`device_validation_error`, `device_not_found`, `create_reading_error`}
(a transport/breaker error during gateway validation yields
`pi_validation_error`, an unknown gateway yields `pi_not_found`, a
failed insert yields `create_reading_error`), and the only error_type
the message callback publishes is `invalid_topic`; a device-id parse
failure publishes nothing. -/
theorem published_error_kinds (env : ApiEnv) (batch : List Telemetry)
    (topic payload : String) (now : Nat) :
    (∀ k ∈ publishedTypes (flushEvents env batch), k ∈ codeErrorKinds)
    ∧ (∀ p d k, onMessage topic payload now = MsgAction.publishError p d k →
        k = "invalid_topic") := by
  constructor
  · induction batch with
    | nil => intro k hk; simp [flushEvents, publishedTypes] at hk
    | cons t rest ih =>
      intro k hk
      rw [show (t :: rest) = [t] ++ rest from rfl, flushEvents_append,
        publishedTypes, List.filterMap_append] at hk
      rcases List.mem_append.mp hk with h | h
      · have hone : k ∈ publishedTypes (processItem env t) := by
          simpa [flushEvents, publishedTypes] using h
        clear hk h ih
        cases hA : atoi t.deviceID with
        | none => simp [processItem, hA, publishedTypes] at hone
        | some d =>
          cases hP : env.validatePi t.piID with
          | error e =>
            simp [processItem, hA, hP, publishedTypes, ApiEvent.errType] at hone
            subst hone; decide
          | ok b =>
            cases b with
            | false =>
              simp [processItem, hA, hP, publishedTypes, ApiEvent.errType] at hone
              subst hone; decide
            | true =>
              cases hD : env.validateDevice t.piID d with
              | error e =>
                simp [processItem, hA, hP, hD, publishedTypes, ApiEvent.errType] at hone
                subst hone; decide
              | ok b2 =>
                cases b2 with
                | false =>
                  simp [processItem, hA, hP, hD, publishedTypes, ApiEvent.errType] at hone
                  subst hone; decide
                | true =>
                  cases hC : env.createReading ⟨t.piID, d, t.receivedAt, t.payload⟩ with
                  | error e =>
                    simp [processItem, hA, hP, hD, hC, publishedTypes, ApiEvent.errType] at hone
                    subst hone; decide
                  | ok u =>
                    simp [processItem, hA, hP, hD, hC, publishedTypes, ApiEvent.errType] at hone
      · exact ih k (by simpa [publishedTypes] using h)
  · intro p d k h
    simp only [onMessage] at h
    split at h
    · simp only [MsgAction.publishError.injEq] at h
      exact h.2.2.symm
    · exact MsgAction.noConfusion h

/-- C5, witness: `published_error_kinds` at a one-item batch whose pi
validation fails at transport level, and at scenario S2's malformed
topic. -/
theorem published_error_kinds_witness :
    "pi_validation_error" ∈ codeErrorKinds ∧ "invalid_topic" = "invalid_topic" := by
  have h := published_error_kinds envPiTransportErr [t0] "invalid/topic" "\x7b\x7d" 0
  refine ⟨h.1 "pi_validation_error" (by decide), ?_⟩
  exact h.2 "topic" "unknown" "invalid_topic" (by decide)

/-- C3, counterexample.  With the intake queue at its capacity of 4096,
the callback-path push `i.msgCh <- reading` does not drop the message
and return with the queue unchanged: the send blocks (no result). -/
theorem channelSend_full_blocks :
    channelSend (List.replicate 4096 t0) t0 = none
    ∧ channelSend (List.replicate 4096 t0) t0 ≠ some (List.replicate 4096 t0) := by
  have h : channelSend (List.replicate 4096 t0) t0 = none := by
    rw [channelSend, List.length_replicate]
    norm_num [queueCapacity]
  exact ⟨h, by rw [h]; exact fun hc => Option.noConfusion hc⟩

/-- C3, amended.  The push of a Telemetry into the intake queue on the
broker-callback path appends the item whenever the queue holds fewer
than its capacity (4096) items; when the queue is full the send *blocks*
(there is no drop path and no warning), so the callback does not return
until space frees up. -/
theorem channelSend_behaviour (q : List Telemetry) (t : Telemetry) :
    (q.length < queueCapacity → channelSend q t = some (q ++ [t]))
    ∧ (queueCapacity ≤ q.length → channelSend q t = none) := by
  constructor
  · intro h
    simp [channelSend, h]
  · intro h
    simp [channelSend, Nat.not_lt.mpr h]

/-- C3, witness: `channelSend_behaviour` on an empty and on a full
queue. -/
theorem channelSend_behaviour_witness :
    channelSend [] t0 = some [t0]
    ∧ channelSend (List.replicate 4096 (Telemetry.mk "p" "d" "t" "b" 1))
        (Telemetry.mk "p" "d" "t" "b" 1) = none := by
  constructor
  · exact (channelSend_behaviour [] t0).1 (by decide)
  · exact (channelSend_behaviour _ _).2 (by rw [List.length_replicate, queueCapacity])

/-- C8.  During a flush, buffered items are processed strictly in
insertion order — the events of a concatenated buffer are the
concatenated events — and for each item the control-plane calls occur in
the fixed order validate-pi, then validate-device only when pi
validation returned `exists = true`, then create-reading only when
device validation returned `exists = true`; a parse failure, a transport
error, or a not-found result cuts off only that item's remaining calls,
never the rest of the batch. -/
theorem flush_in_order (env : ApiEnv) (b1 b2 : List Telemetry) (t : Telemetry) :
    flushEvents env (b1 ++ b2) = flushEvents env b1 ++ flushEvents env b2
    ∧ (callsOf (processItem env t) = []
       ∨ callsOf (processItem env t) = [ApiEvent.callValidatePi t.piID]
       ∨ (∃ d, atoi t.deviceID = some d ∧ env.validatePi t.piID = Except.ok true ∧
           (callsOf (processItem env t) =
              [ApiEvent.callValidatePi t.piID, ApiEvent.callValidateDevice t.piID d]
            ∨ (env.validateDevice t.piID d = Except.ok true ∧
               callsOf (processItem env t) =
                 [ApiEvent.callValidatePi t.piID, ApiEvent.callValidateDevice t.piID d,
                  ApiEvent.callCreateReading ⟨t.piID, d, t.receivedAt, t.payload⟩]))))
    ∧ (∀ d, ApiEvent.callValidateDevice t.piID d ∈ processItem env t →
        atoi t.deviceID = some d ∧ env.validatePi t.piID = Except.ok true)
    ∧ (∀ r, ApiEvent.callCreateReading r ∈ processItem env t →
        env.validatePi t.piID = Except.ok true
        ∧ env.validateDevice t.piID r.deviceID = Except.ok true) := by
  refine ⟨flushEvents_append env b1 b2, ?_, ?_, ?_⟩
  · cases hA : atoi t.deviceID with
    | none =>
      left
      simp [callsOf, processItem, hA]
    | some d =>
      cases hP : env.validatePi t.piID with
      | error e =>
        right; left
        simp [callsOf, processItem, hA, hP, ApiEvent.errType]
      | ok b =>
        cases b with
        | false =>
          right; left
          simp [callsOf, processItem, hA, hP, ApiEvent.errType]
        | true =>
          right; right
          refine ⟨d, rfl, rfl, ?_⟩
          cases hD : env.validateDevice t.piID d with
          | error e =>
            left
            simp [callsOf, processItem, hA, hP, hD, ApiEvent.errType]
          | ok b2 =>
            cases b2 with
            | false =>
              left
              simp [callsOf, processItem, hA, hP, hD, ApiEvent.errType]
            | true =>
              right
              refine ⟨rfl, ?_⟩
              cases hC : env.createReading ⟨t.piID, d, t.receivedAt, t.payload⟩ with
              | error e =>
                simp [callsOf, processItem, hA, hP, hD, hC, ApiEvent.errType]
              | ok u =>
                simp [callsOf, processItem, hA, hP, hD, hC, ApiEvent.errType]
  · intro d hmem
    cases hA : atoi t.deviceID with
    | none => simp [processItem, hA] at hmem
    | some d' =>
      cases hP : env.validatePi t.piID with
      | error e => simp [processItem, hA, hP] at hmem
      | ok b =>
        cases b with
        | false => simp [processItem, hA, hP] at hmem
        | true =>
          cases hD : env.validateDevice t.piID d' with
          | error e =>
            simp [processItem, hA, hP, hD] at hmem
            subst hmem
            exact ⟨rfl, rfl⟩
          | ok b2 =>
            cases b2 with
            | false =>
              simp [processItem, hA, hP, hD] at hmem
              subst hmem
              exact ⟨rfl, rfl⟩
            | true =>
              cases hC : env.createReading ⟨t.piID, d', t.receivedAt, t.payload⟩ with
              | error e =>
                simp [processItem, hA, hP, hD, hC] at hmem
                subst hmem
                exact ⟨rfl, rfl⟩
              | ok u =>
                simp [processItem, hA, hP, hD, hC] at hmem
                subst hmem
                exact ⟨rfl, rfl⟩
  · intro r hmem
    cases hA : atoi t.deviceID with
    | none => simp [processItem, hA] at hmem
    | some d' =>
      cases hP : env.validatePi t.piID with
      | error e => simp [processItem, hA, hP] at hmem
      | ok b =>
        cases b with
        | false => simp [processItem, hA, hP] at hmem
        | true =>
          cases hD : env.validateDevice t.piID d' with
          | error e => simp [processItem, hA, hP, hD] at hmem
          | ok b2 =>
            cases b2 with
            | false => simp [processItem, hA, hP, hD] at hmem
            | true =>
              cases hC : env.createReading ⟨t.piID, d', t.receivedAt, t.payload⟩ with
              | error e =>
                simp [processItem, hA, hP, hD, hC] at hmem
                subst hmem
                exact ⟨rfl, hD⟩
              | ok u =>
                simp [processItem, hA, hP, hD, hC] at hmem
                subst hmem
                exact ⟨rfl, hD⟩

/-- C8, witness: `flush_in_order` at a two-item batch and the happy-path
telemetry under an all-positive control plane. -/
theorem flush_in_order_witness :
    flushEvents envAllOk ([t0] ++ [tBad])
      = flushEvents envAllOk [t0] ++ flushEvents envAllOk [tBad]
    ∧ (atoi t0.deviceID = some 42 ∧ envAllOk.validatePi t0.piID = Except.ok true)
    ∧ (envAllOk.validatePi t0.piID = Except.ok true
       ∧ envAllOk.validateDevice t0.piID 42 = Except.ok true) := by
  have h := flush_in_order envAllOk [t0] [tBad] t0
  refine ⟨h.1, h.2.2.1 42 (by decide), ?_⟩
  exact h.2.2.2 ⟨t0.piID, 42, t0.receivedAt, t0.payload⟩ (by decide)

/-- C9.  `Stop` closes the intake channel exactly once — after the
broker disconnect and before awaiting the writer — and the batch writer,
once the channel is closed, receives every Telemetry still queued in
FIFO order and flushes exactly those items (current buffer first, then
the queued remainder, the last flush covering whatever remains) before
returning. -/
theorem shutdown_drains (env : ApiEnv) (batchSize : Nat)
    (batch pending : List Telemetry) (connected : Bool) :
    (stopSequence connected).count LifecycleOp.closeIntake = 1
    ∧ stopSequence true
        = [LifecycleOp.disconnect, LifecycleOp.closeIntake, LifecycleOp.waitWriter]
    ∧ drainLoop env batchSize batch pending = flushEvents env (batch ++ pending) := by
  refine ⟨?_, rfl, ?_⟩
  · cases connected <;> rfl
  · induction pending generalizing batch with
    | nil => simp [drainLoop]
    | cons rd rest ih =>
      simp only [drainLoop]
      by_cases hb : batchSize ≤ (batch ++ [rd]).length
      · rw [if_pos hb, ih []]
        rw [show batch ++ rd :: rest = (batch ++ [rd]) ++ rest by simp, flushEvents_append]
        simp [flushEvents]
      · rw [if_neg hb, ih (batch ++ [rd])]
        simp

/-- C2, counterexample.  After five failures at instant 0 the breaker is
open; at instant 100 s the reset window (30 s) has long elapsed, so the
state violates `open ⇒ now − last_failure_at < reset_timeout`; the next
call is permitted (`canExecute` is true) but no transition to half-open
happens — after a failing probe the breaker is still `open`, after a
successful probe it is `closed`, and the half-open state is never
entered. -/
theorem breaker_invariant_violated :
    openBreaker5.state = CircuitBreakerState.opened
    ∧ ¬ (100 * second - openBreaker5.lastFailTime < openBreaker5.resetTimeout)
    ∧ canExecute openBreaker5 (100 * second) = true
    ∧ (retryWithBackoff defaultMaxRetries defaultRetryDelay openBreaker5 opFail noCancel
        (100 * second)).breaker.state = CircuitBreakerState.opened
    ∧ (retryWithBackoff defaultMaxRetries defaultRetryDelay openBreaker5 (fun _ => true)
        noCancel (100 * second)).breaker.state = CircuitBreakerState.closed := by
  decide

/-- C2, amended.  If the breaker is open and `now − last_failure_at ≤
reset_timeout`, a call fails immediately with the breaker-open error,
with zero requests and the breaker unchanged.  If it is open and the
window has strictly elapsed, the next call is permitted — but the state
*remains* open: there is no transition to half-open (`onHalfOpen` is
never invoked; the final breaker state is never half-open).  A
successful permitted probe closes the breaker with failure_count 0 after
exactly one request; failing probes leave the breaker open.  The
invariant `state = open ⇒ now − last_failure_at < reset_timeout` does
not hold (see the counterexample). -/
theorem breaker_machine (cb : CircuitBreaker) (now maxRetries retryDelay : Nat)
    (op cancel : Nat → Bool) :
    (cb.state = CircuitBreakerState.opened → now - cb.lastFailTime ≤ cb.resetTimeout →
      retryWithBackoff maxRetries retryDelay cb op cancel now
        = ⟨cb, 0, [], CallOutcome.breakerOpenErr⟩)
    ∧ (cb.state = CircuitBreakerState.opened → cb.resetTimeout < now - cb.lastFailTime →
      canExecute cb now = true)
    ∧ (canExecute cb now = true → op 0 = true →
      retryWithBackoff maxRetries retryDelay cb op cancel now
        = ⟨onSuccess cb, 1, [], CallOutcome.success⟩
      ∧ (onSuccess cb).state = CircuitBreakerState.closed
      ∧ (onSuccess cb).failureCount = 0)
    ∧ ((∀ i, op i = false) → cb.state = CircuitBreakerState.opened →
      (retryWithBackoff maxRetries retryDelay cb op cancel now).breaker.state
        = CircuitBreakerState.opened)
    ∧ (cb.state ≠ CircuitBreakerState.halfOpen →
      (retryWithBackoff maxRetries retryDelay cb op cancel now).breaker.state
        ≠ CircuitBreakerState.halfOpen) := by
  refine ⟨?_, ?_, ?_, ?_, ?_⟩
  · intro h1 h2
    have hce : canExecute cb now = false := by
      simp only [canExecute, h1, decide_eq_false_iff_not]
      omega
    unfold retryWithBackoff
    rw [List.range_succ_eq_map]
    simp [retryLoop, hce]
  · intro h1 h2
    simp only [canExecute, h1, decide_eq_true_eq]
    omega
  · intro hce hop
    refine ⟨?_, rfl, rfl⟩
    unfold retryWithBackoff
    rw [List.range_succ_eq_map]
    simp [retryLoop, hce, hop]
  · intro hop h1
    exact retryLoop_all_fail_opened maxRetries retryDelay op cancel _ cb now 0 [] hop h1
  · intro h1
    exact retryLoop_no_half_open maxRetries retryDelay op cancel _ cb now 0 [] h1

/-- C2, witness: `breaker_machine` at the open breaker `openBreaker5`,
within the window (10 s) and after it (100 s). -/
theorem breaker_machine_witness :
    retryWithBackoff 3 second openBreaker5 opFail noCancel (10 * second)
      = ⟨openBreaker5, 0, [], CallOutcome.breakerOpenErr⟩
    ∧ canExecute openBreaker5 (100 * second) = true
    ∧ retryWithBackoff 3 second openBreaker5 (fun _ => true) noCancel (100 * second)
      = ⟨onSuccess openBreaker5, 1, [], CallOutcome.success⟩
    ∧ (retryWithBackoff 3 second openBreaker5 opFail noCancel (100 * second)).breaker.state
      = CircuitBreakerState.opened
    ∧ (retryWithBackoff 3 second openBreaker5 opFail noCancel (100 * second)).breaker.state
      ≠ CircuitBreakerState.halfOpen := by
  have ha := breaker_machine openBreaker5 (10 * second) 3 second opFail noCancel
  have hb := breaker_machine openBreaker5 (100 * second) 3 second (fun _ => true) noCancel
  have hc := breaker_machine openBreaker5 (100 * second) 3 second opFail noCancel
  exact ⟨ha.1 (by decide) (by decide),
    hb.2.1 (by decide) (by decide),
    (hb.2.2.1 (by decide) rfl).1,
    hc.2.2.2.1 (fun i => rfl) (by decide),
    hc.2.2.2.2 (by decide)⟩

/-- C6, counterexample.  With the default client (maxRetries 3, base 1 s,
maxFailures 5) and every request failing: a single failed call makes 4
requests and leaves failure_count = 4 (not 1) with the breaker still
closed; already the *second* consecutive failed call trips the breaker —
it makes one request (failure_count 5, breaker opens) and returns the
breaker-open error; from the third call on, calls fail with the
breaker-open error after *zero* requests.  It is therefore not the sixth
call that first fails breaker-open, and failed calls do not increment
the counter by exactly one. -/
theorem failure_count_per_attempt :
    call1.breaker.failureCount = 4 ∧ call1.requests = 4
    ∧ call1.breaker.state = CircuitBreakerState.closed
    ∧ call2.outcome = CallOutcome.breakerOpenErr ∧ call2.requests = 1
    ∧ call2.breaker.failureCount = 5
    ∧ call2.breaker.state = CircuitBreakerState.opened
    ∧ call3.outcome = CallOutcome.breakerOpenErr ∧ call3.requests = 0 := by
  decide

/-- C6, amended.  `failure_count` counts consecutive failed *HTTP
attempts*, not failed calls: `onFailure` (run once per failed attempt,
and a failed call makes up to maxRetries + 1 = 4 attempts) increments
the count by exactly one and records the failure instant; the breaker
opens exactly when the incremented count reaches max_failures (and stays
open once open); a successful attempt resets the count to zero; and over
any all-failing call the final count is the initial count plus the
number of requests made. -/
theorem failure_counting (cb : CircuitBreaker) (now maxRetries retryDelay : Nat)
    (op cancel : Nat → Bool) :
    (onFailure cb now).failureCount = cb.failureCount + 1
    ∧ (onFailure cb now).lastFailTime = now
    ∧ ((onFailure cb now).state = CircuitBreakerState.opened
        ↔ cb.maxFailures ≤ cb.failureCount + 1 ∨ cb.state = CircuitBreakerState.opened)
    ∧ (onSuccess cb).failureCount = 0
    ∧ ((∀ i, op i = false) →
      (retryWithBackoff maxRetries retryDelay cb op cancel now).breaker.failureCount
        = cb.failureCount
          + (retryWithBackoff maxRetries retryDelay cb op cancel now).requests) := by
  refine ⟨onFailure_count cb now, onFailure_lastFail cb now, onFailure_state_iff cb now,
    rfl, ?_⟩
  intro hop
  have h := retryLoop_fail_counting maxRetries retryDelay op cancel
    (List.range (maxRetries + 1)) cb now 0 [] hop
  unfold retryWithBackoff
  omega

/-- C6, witness: `failure_counting` on the fresh default breaker with an
all-failing operation. -/
theorem failure_counting_witness :
    (retryWithBackoff 3 second initialBreaker opFail noCancel 0).breaker.failureCount
      = initialBreaker.failureCount
        + (retryWithBackoff 3 second initialBreaker opFail noCancel 0).requests :=
  (failure_counting initialBreaker 0 3 second opFail noCancel).2.2.2.2 (fun _ => rfl)

/-- C7.  With the default maxRetries (3) and a fresh breaker, a call
whose operation first succeeds on attempt k (1-indexed, k ≤ 4) issues
exactly k requests with waits base·2^0, …, base·2^(k−2) between
consecutive attempts and ends successfully; and if the context is
cancelled during one of the backoff waits, the call returns the
cancellation outcome, not a failure classification. -/
theorem retry_backoff (base : Nat) (k : Nat) (op cancel : Nat → Bool) (now : Nat)
    (h1 : 1 ≤ k) (h2 : k ≤ 4)
    (hfail : ∀ i, i < k - 1 → op i = false) (hsucc : op (k - 1) = true)
    (hnc : ∀ i, cancel i = false) :
    ((retryWithBackoff 3 base initialBreaker op cancel now).requests = k
     ∧ (retryWithBackoff 3 base initialBreaker op cancel now).waits
         = (List.range (k - 1)).map (fun i => base * 2 ^ i)
     ∧ (retryWithBackoff 3 base initialBreaker op cancel now).outcome = CallOutcome.success)
    ∧ (∀ (op2 cancel2 : Nat → Bool) (j : Nat), j ≤ 2 →
        (∀ i, i ≤ j → op2 i = false) → (∀ i, i < j → cancel2 i = false) →
        cancel2 j = true →
        (retryWithBackoff 3 base initialBreaker op2 cancel2 now).outcome
          = CallOutcome.cancelled) := by
  have e4 : List.range (3 + 1) = [0, 1, 2, 3] := by decide
  have e1 : List.range 1 = [0] := by decide
  have e2 : List.range 2 = [0, 1] := by decide
  have e3 : List.range 3 = [0, 1, 2] := by decide
  constructor
  · interval_cases k
    · have hs : op 0 = true := hsucc
      refine ⟨?_, ?_, ?_⟩ <;>
        simp [retryWithBackoff, e4, retryLoop, canExecute, initialBreaker, hs]
    · have hs : op 1 = true := hsucc
      have hf0 : op 0 = false := hfail 0 (by omega)
      refine ⟨?_, ?_, ?_⟩ <;>
        simp [retryWithBackoff, e4, e1, retryLoop, canExecute, onFailure, initialBreaker,
          hs, hf0, hnc 0]
    · have hs : op 2 = true := hsucc
      have hf0 : op 0 = false := hfail 0 (by omega)
      have hf1 : op 1 = false := hfail 1 (by omega)
      refine ⟨?_, ?_, ?_⟩ <;>
        simp [retryWithBackoff, e4, e2, retryLoop, canExecute, onFailure, initialBreaker,
          hs, hf0, hf1, hnc 0, hnc 1]
    · have hs : op 3 = true := hsucc
      have hf0 : op 0 = false := hfail 0 (by omega)
      have hf1 : op 1 = false := hfail 1 (by omega)
      have hf2 : op 2 = false := hfail 2 (by omega)
      refine ⟨?_, ?_, ?_⟩ <;>
        simp [retryWithBackoff, e4, e3, retryLoop, canExecute, onFailure, initialBreaker,
          hs, hf0, hf1, hf2, hnc 0, hnc 1, hnc 2]
  · intro op2 cancel2 j hj hf hcless hcj
    interval_cases j
    · have h0 : op2 0 = false := hf 0 (by omega)
      simp [retryWithBackoff, e4, retryLoop, canExecute, onFailure, initialBreaker, h0, hcj]
    · have h0 : op2 0 = false := hf 0 (by omega)
      have h1' : op2 1 = false := hf 1 (by omega)
      have hc0 : cancel2 0 = false := hcless 0 (by omega)
      simp [retryWithBackoff, e4, retryLoop, canExecute, onFailure, initialBreaker,
        h0, h1', hc0, hcj]
    · have h0 : op2 0 = false := hf 0 (by omega)
      have h1' : op2 1 = false := hf 1 (by omega)
      have h2' : op2 2 = false := hf 2 (by omega)
      have hc0 : cancel2 0 = false := hcless 0 (by omega)
      have hc1 : cancel2 1 = false := hcless 1 (by omega)
      simp [retryWithBackoff, e4, retryLoop, canExecute, onFailure, initialBreaker,
        h0, h1', h2', hc0, hc1, hcj]

/-- C7, witness: `retry_backoff` with an operation succeeding on attempt
2, and a context cancelled during the first backoff wait. -/
theorem retry_backoff_witness :
    ((retryWithBackoff 3 second initialBreaker (fun i => i == 1) noCancel 0).requests = 2
     ∧ (retryWithBackoff 3 second initialBreaker (fun i => i == 1) noCancel 0).waits
         = (List.range (2 - 1)).map (fun i => second * 2 ^ i)
     ∧ (retryWithBackoff 3 second initialBreaker (fun i => i == 1) noCancel 0).outcome
         = CallOutcome.success)
    ∧ (retryWithBackoff 3 second initialBreaker opFail (fun i => i == 0) 0).outcome
        = CallOutcome.cancelled := by
  have h := retry_backoff second 2 (fun i => i == 1) noCancel 0 (by omega) (by omega)
    (fun i hi => by
      have : i = 0 := by omega
      subst this
      rfl)
    rfl (fun i => rfl)
  exact ⟨h.1, h.2 opFail (fun i => i == 0) 0 (by omega) (fun i hi => rfl)
    (fun i hi => by omega) rfl⟩

/-- C10.  A 200/201 response whose body decodes with `success = false`
and an empty `error` field is classified as a success by
`CreateReading`: the retried operation returns no error, so the breaker
records a success (one request, closed, failure_count 0), and because
`CreateReading` returns no error the flush publishes no insert-failure
diagnostic for that reading. -/
theorem create_reading_false_success (r : HttpResponse) (cb : CircuitBreaker)
    (now maxRetries retryDelay : Nat) (cancel : Nat → Bool)
    (env : ApiEnv) (t : Telemetry) (d : Int)
    (h200 : r.status = 200 ∨ r.status = 201) (hdec : r.decodeOk = true)
    (hsucc : r.success = false) (herr : r.error = "") :
    createReadingClassify (some r) = true
    ∧ (canExecute cb now = true →
      retryWithBackoff maxRetries retryDelay cb (fun _ => createReadingClassify (some r))
          cancel now
        = ⟨onSuccess cb, 1, [], CallOutcome.success⟩)
    ∧ (onSuccess cb).failureCount = 0 ∧ (onSuccess cb).state = CircuitBreakerState.closed
    ∧ (atoi t.deviceID = some d → env.validatePi t.piID = Except.ok true →
      env.validateDevice t.piID d = Except.ok true →
      env.createReading ⟨t.piID, d, t.receivedAt, t.payload⟩ = Except.ok () →
      publishedTypes (processItem env t) = []) := by
  have hcl : createReadingClassify (some r) = true := by
    rcases h200 with h | h <;> simp [createReadingClassify, h, hdec, hsucc, herr]
  refine ⟨hcl, ?_, rfl, rfl, ?_⟩
  · intro hce
    unfold retryWithBackoff
    rw [List.range_succ_eq_map]
    simp [retryLoop, hce, hcl]
  · intro hA hP hD hC
    simp [processItem, hA, hP, hD, hC, publishedTypes, ApiEvent.errType]

/-- C10, witness: `create_reading_false_success` at the literal response
`{status 200, success false, error ""}`, the fresh breaker, and the
happy-path telemetry. -/
theorem create_reading_false_success_witness :
    createReadingClassify (some ⟨200, true, false, ""⟩) = true
    ∧ retryWithBackoff 3 second initialBreaker
        (fun _ => createReadingClassify (some ⟨200, true, false, ""⟩)) noCancel 0
      = ⟨onSuccess initialBreaker, 1, [], CallOutcome.success⟩
    ∧ publishedTypes (processItem envAllOk t0) = [] := by
  have h := create_reading_false_success ⟨200, true, false, ""⟩ initialBreaker 0 3 second
    noCancel envAllOk t0 42 (Or.inl rfl) rfl rfl rfl
  exact ⟨h.1, h.2.1 (by decide), h.2.2.2.2 (by decide) rfl rfl rfl⟩

end MpttServer
